import Mathlib

/-!
Verification of the session/history core of the gemini-chatbot-proxy
repository against its specification.

The repository is a set of Express server variants.  The parts embedded
here, translated line by line from the JavaScript source:

* `chatHistory.js` — cookie-based session identity (`getSessionId`), the
  in-memory session store (`getHistory`) and the bounded FIFO transcript
  append (`addToHistory`).
* `src/unnamed/part_003` — the streaming `/chat` handler with per-session
  history (`part3Chat`), including its inline session setup.
* `server.js` (the variant carrying the `/voice` endpoint and the
  quota-aware `/chat` catch) — `serverChat`, `chatCatch`, `voiceHandler`,
  `voiceCatch`.

JavaScript `Map`/plain-object stores are embedded as association lists,
mutation as explicit state passing, `async`/`await` upstream calls as
explicit outcome parameters (`StreamOutcome`, `Except`), and thrown
errors as the corresponding error branches.
-/

namespace GeminiProxy

/-- A conversation role.  `chatHistory.js` and `part_003` tag turns with
the strings "user" / "model"; we embed the two values as an inductive. -/
inductive Role where
  | user
  | model
deriving DecidableEq, Repr

/-- One transcript turn.  `chatHistory.js` stores `{ role, parts: [{ text }] }`
(a single-element `parts` array wrapping one text), `part_003` stores
`{ role, content }`; both carry exactly one role and one text, embedded
as this structure. -/
structure Turn where
  role : Role
  text : String
deriving DecidableEq, Repr

def userTurn (t : String) : Turn := ⟨Role.user, t⟩

def modelTurn (t : String) : Turn := ⟨Role.model, t⟩

/-- The session store: `const histories = new Map()` in `chatHistory.js`
(and `const sessions = {}` in `part_003`), embedded as an association
list from session id to transcript. -/
def Store : Type := List (String × List Turn)

instance : DecidableEq Store := by
  unfold Store; infer_instance

/-- `histories.get(sessionId)` / `sessions[sessionId]`: `none` models the
JavaScript `undefined` of a missing key. -/
def lookupStore (s : Store) (k : String) : Option (List Turn) :=
  match s with
  | [] => none
  | (k', v) :: rest => if k' = k then some v else lookupStore rest k

/-- `histories.set(sessionId, v)` / `sessions[sessionId] = v`. -/
def setStore (s : Store) (k : String) (v : List Turn) : Store :=
  match s with
  | [] => [(k, v)]
  | (k', v') :: rest =>
      if k' = k then (k, v) :: rest else (k', v') :: setStore rest k v

/-- `chatHistory.js` lines 15-20, `getHistory(sessionId)`: create an empty
transcript on first access, then return the stored transcript.  The pure
embedding returns the transcript together with the (possibly extended)
store. -/
def getHistory (s : Store) (sid : String) : List Turn × Store :=
  match lookupStore s sid with
  | some h => (h, s)
  | none => ([], setStore s sid [])

/-- The body of `addToHistory` acting on one transcript (`chatHistory.js`
lines 24-29): `history.push({role, parts:[{text}]})`, then
`if (history.length > 20) history.shift()`. -/
def pushTrim (h : List Turn) (t : Turn) : List Turn :=
  let h' := h ++ [t]
  if h'.length > 20 then h'.tail else h'

/-- `chatHistory.js` lines 22-30, `addToHistory(sessionId, role, text)`:
fetch (or create) the session's transcript via `getHistory`, push the
new turn, evict the oldest turn when the length exceeds 20. -/
def addToHistory (s : Store) (sid : String) (role : Role) (text : String) :
    Store :=
  let p := getHistory s sid
  setStore p.2 sid (pushTrim p.1 ⟨role, text⟩)

lemma lookup_set_same (s : Store) (k : String) (v : List Turn) :
    lookupStore (setStore s k v) k = some v := by
  induction s with
  | nil => simp [setStore, lookupStore]
  | cons p rest ih =>
      by_cases h : p.1 = k <;>
        simp [setStore, lookupStore, h, ih]

lemma pushTrim_of_lt (h : List Turn) (t : Turn) (hl : h.length ≤ 19) :
    pushTrim h t = h ++ [t] := by
  unfold pushTrim
  rw [if_neg]
  simp only [List.length_append, List.length_cons, List.length_nil]
  omega

lemma pushTrim_of_full (a : Turn) (as : List Turn) (t : Turn)
    (hl : (a :: as).length = 21 - 1) :
    pushTrim (a :: as) t = as ++ [t] := by
  unfold pushTrim
  rw [if_pos]
  · rfl
  · simp only [List.cons_append, List.length_cons, List.length_append,
      List.length_nil] at hl ⊢
    omega

/-- Folding the transcript-level append over a list of turns keeps exactly
the last 20 of the accumulated sequence. -/
lemma foldl_pushTrim (ts : List Turn) :
    ∀ acc : List Turn, acc.length ≤ 20 →
      ts.foldl pushTrim acc = (acc ++ ts).drop ((acc ++ ts).length - 20) := by
  induction ts with
  | nil =>
      intro acc h
      rw [List.append_nil, show acc.length - 20 = 0 from by omega,
        List.drop_zero]
      rfl
  | cons t ts ih =>
      intro acc h
      rw [List.foldl_cons]
      by_cases hlen : acc.length ≤ 19
      · rw [pushTrim_of_lt acc t hlen,
          ih (acc ++ [t]) (by simp only [List.length_append,
            List.length_cons, List.length_nil]; omega)]
        rw [List.append_assoc, List.singleton_append]
      · have h20 : acc.length = 20 := by omega
        cases acc with
        | nil => simp at h20
        | cons a as =>
            have has : as.length = 19 := by
              simp only [List.length_cons] at h20; omega
            rw [pushTrim_of_full a as t (by simpa using h20),
              ih (as ++ [t]) (by simp only [List.length_append,
                List.length_cons, List.length_nil]; omega)]
            rw [List.append_assoc, List.singleton_append, List.cons_append]
            have hL : (a :: (as ++ t :: ts)).length - 20
                = ((as ++ t :: ts).length - 20) + 1 := by
              simp only [List.length_cons, List.length_append]
              omega
            rw [hL, List.drop_succ_cons]

lemma foldl_pushTrim_nil (ts : List Turn) :
    ts.foldl pushTrim [] = ts.drop (ts.length - 20) := by
  have h := foldl_pushTrim ts [] (by simp)
  simpa using h

lemma addToHistory_of_lookup (s : Store) (sid : String) (t : Turn)
    (cur : List Turn) (h : lookupStore s sid = some cur) :
    addToHistory s sid t.role t.text = setStore s sid (pushTrim cur t) := by
  simp [addToHistory, getHistory, h]

lemma foldl_addToHistory (ts : List Turn) :
    ∀ (s : Store) (sid : String) (cur : List Turn),
      lookupStore s sid = some cur →
      lookupStore (ts.foldl (fun st t => addToHistory st sid t.role t.text) s)
        sid = some (ts.foldl pushTrim cur) := by
  induction ts with
  | nil => intro s sid cur h; simpa using h
  | cons t ts ih =>
      intro s sid cur h
      rw [List.foldl_cons, List.foldl_cons, addToHistory_of_lookup s sid t cur h]
      exact ih _ sid _ (lookup_set_same s sid (pushTrim cur t))

/-- Claim C1: for every session token and every sequence of `N` calls to
`addToHistory` on that token's transcript (starting from an absent or
empty transcript), after the `N`-th append the transcript length equals
`min N 20` and its contents equal the last `min N 20` appended turns in
insertion order, oldest first: FIFO eviction of exactly the oldest turn. -/
theorem addToHistory_fifo_law (s : Store) (sid : String) (ts : List Turn)
    (h0 : lookupStore s sid = none ∨ lookupStore s sid = some [])
    (hne : ts ≠ []) :
    lookupStore (ts.foldl (fun st t => addToHistory st sid t.role t.text) s)
        sid = some (ts.drop (ts.length - 20))
    ∧ (ts.drop (ts.length - 20)).length = min ts.length 20 := by
  constructor
  · rcases h0 with h | h
    · cases ts with
      | nil => exact absurd rfl hne
      | cons t ts' =>
          rw [List.foldl_cons]
          have h1 : addToHistory s sid t.role t.text
              = setStore (setStore s sid []) sid (pushTrim [] t) := by
            simp [addToHistory, getHistory, h]
          rw [h1,
            foldl_addToHistory ts' _ sid (pushTrim [] t)
              (lookup_set_same _ sid (pushTrim [] t)),
            show ts'.foldl pushTrim (pushTrim [] t)
                = (t :: ts').foldl pushTrim [] from rfl,
            foldl_pushTrim_nil]
    · rw [foldl_addToHistory ts s sid [] h,
        show ts.foldl pushTrim ([] : List Turn)
            = ts.foldl pushTrim [] from rfl,
        foldl_pushTrim_nil]
  · rw [List.length_drop]
    omega

/-- Witness for C1: three concrete appends to a fresh store. -/
theorem addToHistory_fifo_law_witness :
    lookupStore ([] : Store) "s" = none
    ∧ ([userTurn "a", modelTurn "b", userTurn "c"] : List Turn) ≠ []
    ∧ (lookupStore
          (([userTurn "a", modelTurn "b", userTurn "c"] : List Turn).foldl
            (fun st t => addToHistory st "s" t.role t.text) ([] : Store)) "s"
        = some (([userTurn "a", modelTurn "b", userTurn "c"] : List Turn).drop
            (([userTurn "a", modelTurn "b", userTurn "c"] : List Turn).length - 20))
      ∧ (([userTurn "a", modelTurn "b", userTurn "c"] : List Turn).drop
            (([userTurn "a", modelTurn "b", userTurn "c"] : List Turn).length - 20)).length
          = min ([userTurn "a", modelTurn "b", userTurn "c"] : List Turn).length 20) :=
  ⟨rfl, by decide,
    addToHistory_fifo_law [] "s" [userTurn "a", modelTurn "b", userTurn "c"]
      (Or.inl rfl) (by decide)⟩

/-! ### Session identity (`chatHistory.js` lines 6-13, `part_003` lines 24-30) -/

/-- The options object passed to `res.cookie`.  `chatHistory.js` passes
`{ httpOnly: true, sameSite: "lax" }` (no `maxAge`); `part_003` passes
`{ httpOnly: true, maxAge: 24 * 60 * 60 * 1000 }` (no `sameSite`).
Absent fields are `none`; `maxAge` is in milliseconds. -/
structure CookieOpts where
  httpOnly : Bool
  sameSite : Option String
  maxAge : Option Nat
deriving DecidableEq, Repr

/-- `chatHistory.js` lines 6-13, `getSessionId(req, res)`: read the
`sessionId` cookie; if it is falsy (absent or empty), generate a fresh
id and set it as a cookie with `{ httpOnly: true, sameSite: "lax" }`.
`cookie` is `req.cookies?.sessionId` (`none` = absent), `fresh` is the
`uuidv4()` value; the result is the returned session id together with
the `res.cookie` call, if any (cookie name/value and options). -/
def getSessionId (cookie : Option String) (fresh : String) :
    String × Option (String × CookieOpts) :=
  match cookie with
  | some sid =>
      if sid = "" then (fresh, some (fresh, ⟨true, some "lax", none⟩))
      else (sid, none)
  | none => (fresh, some (fresh, ⟨true, some "lax", none⟩))

/-- The cookie options of `part_003` line 28:
`{ httpOnly: true, maxAge: 24 * 60 * 60 * 1000 }`. -/
def part3CookieOpts : CookieOpts := ⟨true, none, some (24 * 60 * 60 * 1000)⟩

/-- `part_003` lines 24-28: `let sessionId = req.cookies.sessionId;
if (!sessionId) { sessionId = uuidv4(); res.cookie(...) }`.  Same shape
as `getSessionId` but with `part3CookieOpts`.  (The accompanying
`sessions[sessionId] = []` of line 29 is part of `part3Chat` below.) -/
def part3SessionSetup (cookie : Option String) (fresh : String) :
    String × Option (String × CookieOpts) :=
  match cookie with
  | some sid =>
      if sid = "" then (fresh, some (fresh, part3CookieOpts))
      else (sid, none)
  | none => (fresh, some (fresh, part3CookieOpts))

/-- Claim C9, counterexample: on a request with no session cookie,
`getSessionId` (`chatHistory.js`) issues the fresh token with
`httpOnly: true, sameSite: "lax"` and **no** `maxAge` — so the issued
credential does not carry the claimed bounded lifetime of 24 hours
(`maxAge = some 86400000`); its `maxAge` field is `none`
(a browser-session cookie). -/
theorem session_cookie_no_max_age_cex :
    getSessionId none "t" = ("t", some ("t", ⟨true, some "lax", none⟩))
    ∧ ((getSessionId none "t").2.map fun c => c.2.maxAge) = some none
    ∧ ((getSessionId none "t").2.map fun c => c.2.maxAge)
        ≠ some (some (24 * 60 * 60 * 1000)) := by
  refine ⟨rfl, rfl, ?_⟩
  decide

/-- Claim C9, amended: session-identity resolution never fails; a request
carrying a non-empty session token gets that token back unchanged with no
new credential (both variants); otherwise the fresh token is returned and
set as an `httpOnly` cookie — but only the `part_003` variant bounds its
lifetime at 24 hours (`maxAge = 86400000` ms); `chatHistory.js`'s
`getSessionId` sets `sameSite: "lax"` and no `maxAge` at all. -/
theorem session_identity_resolution (sid fresh : String) (hne : sid ≠ "") :
    (getSessionId (some sid) fresh = (sid, none)
      ∧ part3SessionSetup (some sid) fresh = (sid, none))
    ∧ (getSessionId none fresh = (fresh, some (fresh, ⟨true, some "lax", none⟩))
      ∧ part3SessionSetup none fresh
          = (fresh, some (fresh, ⟨true, none, some (24 * 60 * 60 * 1000)⟩))) := by
  refine ⟨⟨?_, ?_⟩, rfl, rfl⟩
  · simp [getSessionId, hne]
  · simp [part3SessionSetup, hne]

/-- Witness for the amended C9 at a concrete token. -/
theorem session_identity_resolution_witness :
    ("abc" : String) ≠ ""
    ∧ ((getSessionId (some "abc") "f" = ("abc", none)
        ∧ part3SessionSetup (some "abc") "f" = ("abc", none))
      ∧ (getSessionId none "f" = ("f", some ("f", ⟨true, some "lax", none⟩))
        ∧ part3SessionSetup none "f"
            = ("f", some ("f", ⟨true, none, some (24 * 60 * 60 * 1000)⟩)))) :=
  ⟨by decide, session_identity_resolution "abc" "f" (by decide)⟩

/-- Claim C8: `getHistory` (the store's get-or-create operation) is total:
it always returns a transcript.  On first access for a token — including a
token the store has never seen, such as a cookie surviving a process
restart — it returns the empty transcript and records it; a second lookup
with the same token returns the same transcript and leaves the store
unchanged; a token already present is returned as stored, store
untouched. -/
theorem getHistory_getOrCreate (s : Store) (sid : String) :
    (getHistory (getHistory s sid).2 sid = getHistory s sid)
    ∧ (lookupStore s sid = none → getHistory s sid = ([], setStore s sid []))
    ∧ (∀ h, lookupStore s sid = some h → getHistory s sid = (h, s)) := by
  refine ⟨?_, ?_, ?_⟩
  · unfold getHistory
    cases hl : lookupStore s sid with
    | some h => simp [hl]
    | none => simp [hl, lookup_set_same]
  · intro h; simp [getHistory, h]
  · intro h hl; simp [getHistory, hl]

/-- Witness for C8 on a concrete store: a never-seen token (the restart
scenario) and an already-present token. -/
theorem getHistory_getOrCreate_witness :
    (lookupStore ([("old", [userTurn "x"])] : Store) "new" = none
      ∧ getHistory ([("old", [userTurn "x"])] : Store) "new"
          = ([], setStore [("old", [userTurn "x"])] "new" []))
    ∧ (lookupStore ([("old", [userTurn "x"])] : Store) "old" = some [userTurn "x"]
      ∧ getHistory ([("old", [userTurn "x"])] : Store) "old"
          = ([userTurn "x"], [("old", [userTurn "x"])]))
    ∧ getHistory (getHistory ([("old", [userTurn "x"])] : Store) "new").2 "new"
        = getHistory ([("old", [userTurn "x"])] : Store) "new" :=
  ⟨⟨by decide, (getHistory_getOrCreate [("old", [userTurn "x"])] "new").2.1 (by decide)⟩,
   ⟨by decide, (getHistory_getOrCreate [("old", [userTurn "x"])] "old").2.2
      [userTurn "x"] (by decide)⟩,
   (getHistory_getOrCreate [("old", [userTurn "x"])] "new").1⟩

/-! ### The streaming `/chat` handler of `src/unnamed/part_003` -/

/-- The accumulation `let fullResponse = ""; ... fullResponse += text`
of `part_003` lines 44-49, applied to a list of fragment texts. -/
def concatAll (l : List String) : String :=
  l.foldl (fun a b => a ++ b) ""

lemma string_append_empty (s : String) : s ++ "" = s := by
  cases s with
  | mk data =>
      show String.mk (data ++ []) = String.mk data
      rw [List.append_nil]

lemma foldl_append_filter_ne_empty (l : List String) :
    ∀ acc : String,
      (l.filter (fun t => t ≠ "")).foldl (fun a b => a ++ b) acc
        = l.foldl (fun a b => a ++ b) acc := by
  induction l with
  | nil => intro acc; rfl
  | cons a l ih =>
      intro acc
      rw [List.filter_cons]
      by_cases ha : a = ""
      · subst ha
        rw [if_neg (by decide), List.foldl_cons, string_append_empty]
        exact ih acc
      · rw [if_pos (decide_eq_true ha), List.foldl_cons, List.foldl_cons]
        exact ih (acc ++ a)

/-- Dropping the empty fragments does not change the accumulated text. -/
lemma concatAll_filter_ne_empty (l : List String) :
    concatAll (l.filter (fun t => t ≠ "")) = concatAll l :=
  foldl_append_filter_ne_empty l ""

/-- Outcome of `model.startChat(...).sendMessageStream(...)` and of the
`for await` loop over `result.stream`: either the stream ends normally
after yielding `fragments` (each `chunk.text()` in arrival order), or it
throws after yielding `delivered`. -/
inductive StreamOutcome where
  | success (fragments : List String)
  | failure (delivered : List String)
deriving DecidableEq, Repr

/-- Observable result of one run of the `part_003` `/chat` handler.
`events` is the sequence of `res.write("data: ...")` server-sent events,
one per forwarded fragment text, in the order written.  `status` is the
HTTP status set by the handler (200 for the normal path, 500 in the
catch).  `crashed` records the run that throws a `TypeError` before the
`try` block (`history` is `undefined` for an unknown cookie token), in
which case no response is produced. -/
structure Part3Result where
  sessionId : String
  setCookie : Option (String × CookieOpts)
  sessionsAfter : Store
  events : List String
  upstreamCalled : Bool
  status : Nat
  crashed : Bool
deriving DecidableEq

/-- `part_003` lines 23-60, the `/chat` handler.  Inputs: the `sessions`
object, the request cookie, the `uuidv4()` value, `req.body.message`
(absent modelled as `""`, which the handler never distinguishes since it
performs no validation), and the upstream stream outcome.

Line by line: session setup (lines 24-30, `part3SessionSetup` plus
`sessions[sessionId] = []` in the fresh branch); `history.push({role:
"user", content: userMessage})` (line 34) — which throws if `history` is
`undefined` (cookie present but unknown to this process); the stream
loop (lines 46-52) forwarding each chunk whose `text` is non-empty and
accumulating it; on normal end `history.push({role: "model", content:
fullResponse})` and `res.end()` (lines 54-55); on a thrown error
`res.status(500)` with no history commit (lines 56-59). -/
def part3Chat (sessions : Store) (cookie : Option String)
    (fresh message : String) (outcome : StreamOutcome) : Part3Result :=
  let idc := part3SessionSetup cookie fresh
  let sid := idc.1
  let sessions1 :=
    if idc.2.isSome then setStore sessions sid [] else sessions
  match lookupStore sessions1 sid with
  | none =>
      -- `history` is `undefined`: `history.push` throws before the `try`
      ⟨sid, idc.2, sessions1, [], false, 0, true⟩
  | some h =>
      let h1 := h ++ [userTurn message]
      let sessions2 := setStore sessions1 sid h1
      match outcome with
      | .success frags =>
          let events := frags.filter (fun t => t ≠ "")
          ⟨sid, idc.2, setStore sessions2 sid (h1 ++ [modelTurn (concatAll events)]),
            events, true, 200, false⟩
      | .failure delivered =>
          ⟨sid, idc.2, sessions2, delivered.filter (fun t => t ≠ ""),
            true, 500, false⟩

/-- `part_003` contains no client-disconnect handling: the stream loop
never inspects the connection and `res.write` on a response whose client
has gone away is a lost write (it does not throw), so the handler's
effects are exactly those of `part3Chat` whatever the disconnect point.
The client itself receives only the events written before it
disconnected: `disconnectAfter` is how many events the client saw. -/
def part3ChatDisconnect (sessions : Store) (cookie : Option String)
    (fresh message : String) (outcome : StreamOutcome)
    (disconnectAfter : Nat) : Part3Result × List String :=
  let r := part3Chat sessions cookie fresh message outcome
  (r, r.events.take disconnectAfter)

lemma part3SessionSetup_some (sid fresh : String) (hne : sid ≠ "") :
    part3SessionSetup (some sid) fresh = (sid, none) := by
  simp [part3SessionSetup, hne]

lemma part3Chat_success (s : Store) (sid fresh message : String)
    (h : List Turn) (frags : List String) (hne : sid ≠ "")
    (hs : lookupStore s sid = some h) :
    part3Chat s (some sid) fresh message (.success frags)
      = ⟨sid, none,
          setStore (setStore s sid (h ++ [userTurn message])) sid
            (h ++ [userTurn message]
              ++ [modelTurn (concatAll (frags.filter (fun t => t ≠ "")))]),
          frags.filter (fun t => t ≠ ""), true, 200, false⟩ := by
  unfold part3Chat
  rw [part3SessionSetup_some sid fresh hne]
  simp only [Option.isSome_none, Bool.false_eq_true, if_false, hs,
    List.append_assoc]

lemma part3Chat_failure (s : Store) (sid fresh message : String)
    (h : List Turn) (delivered : List String) (hne : sid ≠ "")
    (hs : lookupStore s sid = some h) :
    part3Chat s (some sid) fresh message (.failure delivered)
      = ⟨sid, none, setStore s sid (h ++ [userTurn message]),
          delivered.filter (fun t => t ≠ ""), true, 500, false⟩ := by
  unfold part3Chat
  rw [part3SessionSetup_some sid fresh hne]
  simp only [Option.isSome_none, Bool.false_eq_true, if_false, hs]

lemma part3Chat_fresh_failure (s : Store) (fresh message : String)
    (delivered : List String) :
    part3Chat s none fresh message (.failure delivered)
      = ⟨fresh, some (fresh, part3CookieOpts),
          setStore (setStore s fresh []) fresh [userTurn message],
          delivered.filter (fun t => t ≠ ""), true, 500, false⟩ := by
  unfold part3Chat
  simp only [part3SessionSetup, Option.isSome_some, if_true,
    lookup_set_same, List.nil_append]

/-- Claim C2, counterexample: the stream loop of `part_003` forwards a
fragment only when its text is non-empty (`if (text) { ... res.write }`),
so on the upstream fragment sequence `["a", "", "b"]` the client receives
two events, not one discrete event per fragment: the empty fragment is
never forwarded, refuting "each fragment is forwarded to the client as
one discrete event in arrival order". -/
theorem stream_forward_empty_fragment_cex :
    (part3Chat [("s", [])] (some "s") "f" "hi"
        (.success ["a", "", "b"])).events = ["a", "b"]
    ∧ (part3Chat [("s", [])] (some "s") "f" "hi"
        (.success ["a", "", "b"])).events ≠ ["a", "", "b"]
    ∧ (part3Chat [("s", [])] (some "s") "f" "hi"
        (.success ["a", "", "b"])).events.length ≠ (["a", "", "b"] : List String).length := by
  refine ⟨?_, ?_, ?_⟩ <;> decide

/-- Claim C2, amended: for a streaming chat turn in which the upstream
fragment stream ends normally, each fragment **with non-empty text** is
forwarded to the client as one discrete event in arrival order (fragments
with empty text are silently dropped), and exactly one model Turn — whose
text equals the concatenation of all fragments in arrival order — is
committed to the session's transcript after the stream ends. -/
theorem stream_success_forward_and_commit (s : Store)
    (sid fresh message : String) (h : List Turn) (frags : List String)
    (hne : sid ≠ "") (hs : lookupStore s sid = some h) :
    (part3Chat s (some sid) fresh message (.success frags)).events
        = frags.filter (fun t => t ≠ "")
    ∧ lookupStore
        (part3Chat s (some sid) fresh message (.success frags)).sessionsAfter
        sid = some (h ++ [userTurn message, modelTurn (concatAll frags)])
    ∧ (part3Chat s (some sid) fresh message (.success frags)).status = 200 := by
  rw [part3Chat_success s sid fresh message h frags hne hs]
  refine ⟨rfl, ?_, rfl⟩
  rw [lookup_set_same, concatAll_filter_ne_empty, List.append_assoc]
  rfl

/-- Witness for the amended C2 on a concrete stream (with an empty
fragment, showing the drop and the full concatenation). -/
theorem stream_success_forward_and_commit_witness :
    ("s" : String) ≠ ""
    ∧ lookupStore ([("s", [userTurn "old"])] : Store) "s" = some [userTurn "old"]
    ∧ ((part3Chat [("s", [userTurn "old"])] (some "s") "f" "hi"
          (.success ["a", "", "b"])).events
        = (["a", "", "b"] : List String).filter (fun t => t ≠ "")
      ∧ lookupStore (part3Chat [("s", [userTurn "old"])] (some "s") "f" "hi"
          (.success ["a", "", "b"])).sessionsAfter "s"
        = some ([userTurn "old"] ++ [userTurn "hi", modelTurn (concatAll ["a", "", "b"])])
      ∧ (part3Chat [("s", [userTurn "old"])] (some "s") "f" "hi"
          (.success ["a", "", "b"])).status = 200) :=
  ⟨by decide, by decide,
    stream_success_forward_and_commit [("s", [userTurn "old"])] "s" "f" "hi"
      [userTurn "old"] ["a", "", "b"] (by decide) (by decide)⟩

/-- Claim C3: when the upstream completion step of a chat turn fails after
the user Turn was appended — covering both a failure before any fragment
(`delivered = []`) and a mid-stream failure with a non-empty partial
buffer — the transcript afterwards contains exactly the prior history
plus that user Turn: the user Turn remains and no model Turn (in
particular no partial fragment buffer) is committed.  Stated for a turn
on an existing session (first conjunct) and for a turn that created its
session (second conjunct); the repository's other `/chat` variants cited
by the spec never append a user Turn before the upstream call, so the
claim is vacuous there. -/
theorem stream_failure_keeps_user_turn (s : Store)
    (sid fresh message : String) (h : List Turn) (delivered : List String) :
    (sid ≠ "" → lookupStore s sid = some h →
      lookupStore
        (part3Chat s (some sid) fresh message (.failure delivered)).sessionsAfter
        sid = some (h ++ [userTurn message]))
    ∧ lookupStore
        (part3Chat s none fresh message (.failure delivered)).sessionsAfter
        fresh = some [userTurn message] := by
  constructor
  · intro hne hs
    rw [part3Chat_failure s sid fresh message h delivered hne hs,
      lookup_set_same]
  · rw [part3Chat_fresh_failure s fresh message delivered, lookup_set_same]

/-- Witness for C3: a mid-stream failure after two delivered fragments
leaves only the user Turn appended. -/
theorem stream_failure_keeps_user_turn_witness :
    ("s" : String) ≠ ""
    ∧ lookupStore ([("s", [userTurn "old"])] : Store) "s" = some [userTurn "old"]
    ∧ lookupStore
        (part3Chat [("s", [userTurn "old"])] (some "s") "f" "hi"
          (.failure ["a", "b"])).sessionsAfter "s"
        = some ([userTurn "old"] ++ [userTurn "hi"]) :=
  ⟨by decide, by decide,
    (stream_failure_keeps_user_turn [("s", [userTurn "old"])] "s" "f" "hi"
      [userTurn "old"] ["a", "b"]).1 (by decide) (by decide)⟩

/-- Claim C4, counterexample: the client disconnects after receiving 2 of
5 fragments, the upstream stream runs to completion — and the handler
still commits the full model Turn "abcde" to the transcript, because
`part_003` never observes the client connection.  The claim "no model
Turn is committed ... history is never committed for a
disconnected/incomplete stream" is false on this input. -/
theorem disconnect_commit_cex :
    (part3ChatDisconnect [("s", [])] (some "s") "f" "hi"
        (.success ["a", "b", "c", "d", "e"]) 2).2 = ["a", "b"]
    ∧ (part3ChatDisconnect [("s", [])] (some "s") "f" "hi"
        (.success ["a", "b", "c", "d", "e"]) 2).1.events.length = 5
    ∧ lookupStore (part3ChatDisconnect [("s", [])] (some "s") "f" "hi"
        (.success ["a", "b", "c", "d", "e"]) 2).1.sessionsAfter "s"
        = some [userTurn "hi", modelTurn "abcde"]
    ∧ lookupStore (part3ChatDisconnect [("s", [])] (some "s") "f" "hi"
        (.success ["a", "b", "c", "d", "e"]) 2).1.sessionsAfter "s"
        ≠ some [userTurn "hi"] := by
  refine ⟨?_, ?_, ?_, ?_⟩ <;> decide

/-- Claim C4, amended: if the client disconnects before the stream
completes, the handler keeps draining the upstream stream, the client
receives only the events written before the disconnect, and — contrary to
the claim — when the upstream stream ends normally the full concatenated
reply is still committed to the session's transcript as a model Turn;
only an upstream error prevents the commit. -/
theorem disconnect_still_commits (s : Store) (sid fresh message : String)
    (h : List Turn) (frags : List String) (d : Nat) (hne : sid ≠ "")
    (hs : lookupStore s sid = some h) :
    (part3ChatDisconnect s (some sid) fresh message (.success frags) d).2
        = (frags.filter (fun t => t ≠ "")).take d
    ∧ lookupStore
        (part3ChatDisconnect s (some sid) fresh message (.success frags) d).1.sessionsAfter
        sid = some (h ++ [userTurn message, modelTurn (concatAll frags)]) := by
  unfold part3ChatDisconnect
  rw [part3Chat_success s sid fresh message h frags hne hs]
  refine ⟨rfl, ?_⟩
  rw [lookup_set_same, concatAll_filter_ne_empty, List.append_assoc]
  rfl

/-- Witness for the amended C4: disconnect after 2 of 5 fragments. -/
theorem disconnect_still_commits_witness :
    ("s" : String) ≠ ""
    ∧ lookupStore ([("s", [])] : Store) "s" = some []
    ∧ ((part3ChatDisconnect [("s", [])] (some "s") "f" "hi"
          (.success ["a", "b", "c", "d", "e"]) 2).2
        = ((["a", "b", "c", "d", "e"] : List String).filter
            (fun t => t ≠ "")).take 2
      ∧ lookupStore (part3ChatDisconnect [("s", [])] (some "s") "f" "hi"
          (.success ["a", "b", "c", "d", "e"]) 2).1.sessionsAfter "s"
        = some ([] ++ [userTurn "hi",
            modelTurn (concatAll ["a", "b", "c", "d", "e"])])) :=
  ⟨by decide, by decide,
    disconnect_still_commits [("s", [])] "s" "f" "hi" [] ["a", "b", "c", "d", "e"]
      2 (by decide) (by decide)⟩

/-! ### The `/chat` and `/voice` handlers of `server.js`
(the variant with speech support, the second document in the file) -/

/-- `charsLead pat l` : `pat` is an initial run of `l`. -/
def charsLead : List Char → List Char → Bool
  | [], _ => true
  | _ :: _, [] => false
  | a :: as, b :: bs => a == b && charsLead as bs

/-- `charsIncl pat l` : `pat` occurs contiguously somewhere in `l`. -/
def charsIncl : List Char → List Char → Bool
  | pat, [] => pat.isEmpty
  | pat, b :: bs => charsLead pat (b :: bs) || charsIncl pat bs

/-- `strIncludes s pat` models the JavaScript `s.includes(pat)`. -/
def strIncludes (s pat : String) : Bool :=
  charsIncl pat.toList s.toList

/-- The shape of a JSON response sent by the `server.js` handlers:
HTTP status plus the optional `reply` and `error` body fields. -/
structure HttpResp where
  status : Nat
  reply : Option String
  error : Option String
deriving DecidableEq, Repr

/-- Outcome of `geminiModel.generateContent(...)`: the reply text, or a
thrown error carrying `err.message`. -/
inductive GeminiOutcome where
  | ok (reply : String)
  | err (msg : String)
deriving DecidableEq, Repr

/-- The catch block of the `server.js` `/chat` handler (lines 137-147):
`err.message.includes('API key not valid')` gives 401 with a fixed body,
`err.message.includes('quota')` gives 429 with a fixed body, anything
else gives 500 with the raw `err.message` embedded in the body. -/
def chatCatch (msg : String) : HttpResp :=
  if strIncludes msg "API key not valid" then
    ⟨401, none,
      some "Invalid Gemini API Key. Please check your GEMINI_API_KEY environment variable."⟩
  else if strIncludes msg "quota" then
    ⟨429, none,
      some "Gemini API quota exceeded. Please check your usage limits."⟩
  else
    ⟨500, none, some ("Failed to get Gemini response: " ++ msg)⟩

/-- The `server.js` `/chat` handler (lines 123-148): reject a falsy
`message` (absent or empty) with 400 before any upstream call, otherwise
return the Gemini reply or translate the thrown error via `chatCatch`.
The second component records whether the upstream completion capability
was invoked. -/
def serverChat (message : Option String) (u : GeminiOutcome) :
    HttpResp × Bool :=
  match message with
  | none => (⟨400, none, some "Message is required."⟩, false)
  | some m =>
      if m = "" then (⟨400, none, some "Message is required."⟩, false)
      else
        match u with
        | .ok r => (⟨200, some r, none⟩, true)
        | .err e => (chatCatch e, true)

/-- The spec's taxonomy class of an upstream completion failure, as
induced by the branch conditions of `chatCatch`: `UpstreamAuth` when the
message mentions an invalid API key, `UpstreamThrottled` when it mentions
quota, `UpstreamUnavailable` (generic) otherwise. -/
inductive ErrClass where
  | auth
  | throttled
  | generic
deriving DecidableEq, Repr

def errClass (msg : String) : ErrClass :=
  if strIncludes msg "API key not valid" then ErrClass.auth
  else if strIncludes msg "quota" then ErrClass.throttled
  else ErrClass.generic

/-- Claim C7, counterexample: two upstream failures of the same taxonomy
class (both generic `UpstreamUnavailable`) with different raw messages
produce different client-visible response bodies — the 500 branch of
`chatCatch` embeds the raw upstream `err.message`, so it leaks to the
client. -/
theorem chat_error_leak_cex :
    errClass "upstream exploded A" = errClass "upstream exploded B"
    ∧ serverChat (some "hi") (.err "upstream exploded A")
        ≠ serverChat (some "hi") (.err "upstream exploded B")
    ∧ (serverChat (some "hi") (.err "upstream exploded A")).1.error
        = some "Failed to get Gemini response: upstream exploded A" := by
  refine ⟨?_, ?_, ?_⟩ <;> decide

/-- Claim C7, amended: the response depends only on the taxonomy class
for the `UpstreamAuth` and `UpstreamThrottled` classes (fixed 401/429
bodies), but for the generic `UpstreamUnavailable` class the 500 body
embeds the raw upstream error message, so same-class failures with
different messages produce different bodies there. -/
theorem chat_error_class_determined (m1 m2 : String)
    (h : errClass m1 = errClass m2) (hg : errClass m1 ≠ ErrClass.generic) :
    chatCatch m1 = chatCatch m2 := by
  unfold errClass at h hg
  unfold chatCatch
  split_ifs at h hg ⊢ <;> simp_all

/-- Witness for the amended C7: two distinct auth-class messages map to
the same response. -/
theorem chat_error_class_determined_witness :
    errClass "API key not valid." = errClass "boom API key not valid boom"
    ∧ errClass "API key not valid." ≠ ErrClass.generic
    ∧ chatCatch "API key not valid." = chatCatch "boom API key not valid boom" :=
  ⟨by decide, by decide,
    chat_error_class_determined "API key not valid." "boom API key not valid boom"
      (by decide) (by decide)⟩

/-- Claim C10, counterexample: the `part_003` `/chat` handler performs no
input validation; with an empty user message it still appends a user Turn
with empty text to the transcript, invokes the upstream capability, and
answers 200 — instead of the claimed immediate 400 rejection with no
transcript mutation and no upstream call. -/
theorem empty_message_not_rejected_cex :
    (part3Chat [("s", [])] (some "s") "f" "" (.success ["ok"])).upstreamCalled = true
    ∧ (part3Chat [("s", [])] (some "s") "f" "" (.success ["ok"])).status = 200
    ∧ lookupStore
        (part3Chat [("s", [])] (some "s") "f" "" (.success ["ok"])).sessionsAfter
        "s" = some [userTurn "", modelTurn "ok"]
    ∧ lookupStore
        (part3Chat [("s", [])] (some "s") "f" "" (.success ["ok"])).sessionsAfter
        "s" ≠ some [] := by
  refine ⟨?_, ?_, ?_, ?_⟩ <;> decide

/-- Claim C10, amended: the `server.js` `/chat` handler rejects an empty
or absent message with HTTP 400 before invoking the completion capability
(and that variant keeps no transcript at all); the `part_003` streaming
handler, by contrast, performs no validation — an empty message is
appended to the session transcript as a user Turn and the upstream
capability is invoked. -/
theorem empty_message_validation (u : GeminiOutcome) (s : Store)
    (sid fresh : String) (h : List Turn) (frags : List String)
    (hne : sid ≠ "") (hs : lookupStore s sid = some h) :
    (serverChat none u = (⟨400, none, some "Message is required."⟩, false)
      ∧ serverChat (some "") u = (⟨400, none, some "Message is required."⟩, false))
    ∧ ((part3Chat s (some sid) fresh "" (.success frags)).upstreamCalled = true
      ∧ lookupStore
          (part3Chat s (some sid) fresh "" (.success frags)).sessionsAfter sid
          = some (h ++ [userTurn "", modelTurn (concatAll frags)])) := by
  refine ⟨⟨rfl, rfl⟩, ?_, ?_⟩
  · rw [part3Chat_success s sid fresh "" h frags hne hs]
  · rw [part3Chat_success s sid fresh "" h frags hne hs, lookup_set_same,
      concatAll_filter_ne_empty, List.append_assoc]
    rfl

/-- Witness for the amended C10 at concrete inputs. -/
theorem empty_message_validation_witness :
    ("s" : String) ≠ ""
    ∧ lookupStore ([("s", [])] : Store) "s" = some []
    ∧ ((serverChat none (.ok "r") = (⟨400, none, some "Message is required."⟩, false)
        ∧ serverChat (some "") (.ok "r")
            = (⟨400, none, some "Message is required."⟩, false))
      ∧ ((part3Chat [("s", [])] (some "s") "f" "" (.success ["ok"])).upstreamCalled = true
        ∧ lookupStore
            (part3Chat [("s", [])] (some "s") "f" "" (.success ["ok"])).sessionsAfter
            "s" = some ([] ++ [userTurn "", modelTurn (concatAll ["ok"])]))) :=
  ⟨by decide, by decide,
    empty_message_validation (.ok "r") [("s", [])] "s" "f" [] ["ok"]
      (by decide) (by decide)⟩

/-- An error thrown by a Google Cloud client call: the optional gRPC
`err.code` and `err.message`, the two fields the `/voice` catch block
inspects. -/
structure GErr where
  code : Option Nat
  msg : String
deriving DecidableEq, Repr

/-- The catch block of the `server.js` `/voice` handler (lines 195-209):
codes 7/10 give 500, code 3 gives 400, an invalid-API-key message gives
401, anything else gives 500 with the raw message embedded. -/
def voiceCatch (e : GErr) : HttpResp :=
  if e.code = some 7 ∨ e.code = some 10 then
    ⟨500, none,
      some "Authentication or permission error with Google Cloud APIs (Speech-to-Text/Text-to-Speech). Check Cloud Run service account roles."⟩
  else if e.code = some 3 then
    ⟨400, none,
      some "Invalid audio format or configuration sent to Speech-to-Text. Ensure client-side recording matches backend expectations (WEBM_OPUS, 48000Hz)."⟩
  else if strIncludes e.msg "API key not valid" then
    ⟨401, none,
      some "Invalid Gemini API Key. Please check your GEMINI_API_KEY environment variable."⟩
  else
    ⟨500, none, some ("Failed to process voice request: " ++ e.msg)⟩

/-- A `/voice` response: status plus the optional `reply`, `audio` and
`error` body fields. -/
structure VoiceResp where
  status : Nat
  reply : Option String
  audio : Option String
  error : Option String
deriving DecidableEq, Repr

/-- A catch-block response carried over to the `/voice` body shape (the
catch never sets `audio`). -/
def voiceErrResp (r : HttpResp) : VoiceResp :=
  ⟨r.status, r.reply, none, r.error⟩

/-- The `server.js` `/voice` handler (lines 151-210).  Inputs: `req.file`
(the uploaded audio, opaque), the outcome of `speechClient.recognize`
(on success, the per-result transcript alternatives that the code joins
with newlines), of `geminiModel.generateContent`, and of
`ttsClient.synthesizeSpeech` (on success, the base64 audio string sent
to the client).  All three stages sit in one `try`; any thrown error
goes to `voiceCatch`.

`server.js` imports no session store and this handler reads and writes
no transcript; the `store` parameter is threaded through unchanged so
that transcript (non-)mutation is an explicit part of the result.  The
middle component of the result is the prompt text submitted to the
completion capability, if it was invoked (`generateContent(transcript)`,
line 181). -/
def voiceHandler (store : Store) (file : Option String)
    (stt : Except GErr (List String)) (gemini : Except GErr String)
    (tts : Except GErr String) : VoiceResp × Option String × Store :=
  match file with
  | none => (⟨400, none, none, some "Audio file is required."⟩, none, store)
  | some _ =>
      match stt with
      | .error e => (voiceErrResp (voiceCatch e), none, store)
      | .ok parts =>
          let transcript := String.intercalate "\n" parts
          if transcript = "" then
            (⟨400, some "Could not understand the audio. Please try again.",
              none, none⟩, none, store)
          else
            match gemini with
            | .error e => (voiceErrResp (voiceCatch e), some transcript, store)
            | .ok reply =>
                match tts with
                | .error e =>
                    (voiceErrResp (voiceCatch e), some transcript, store)
                | .ok audio =>
                    (⟨200, some reply, some audio, none⟩, some transcript, store)

/-- Claim C5, counterexample: a voice turn with a successful non-empty
transcription ("hello") runs to a successful completion and synthesis,
yet the session store is exactly as before: no user Turn "hello" was
appended, no model Turn "hi there" was appended, and the prompt submitted
upstream was the bare transcript, not a transcript-extended history —
refuting "the user Turn is appended to the session transcript, the full
transcript is submitted ... and the complete reply is appended as a model
Turn". -/
theorem voice_completion_stateless_cex :
    voiceHandler [("s", [userTurn "old"])] (some "audio") (.ok ["hello"])
        (.ok "hi there") (.ok "mp3bytes")
      = (⟨200, some "hi there", some "mp3bytes", none⟩, some "hello",
          [("s", [userTurn "old"])])
    ∧ lookupStore ([("s", [userTurn "old"])] : Store) "s" = some [userTurn "old"]
    ∧ lookupStore
        (voiceHandler [("s", [userTurn "old"])] (some "audio") (.ok ["hello"])
          (.ok "hi there") (.ok "mp3bytes")).2.2 "s"
        ≠ some [userTurn "old", userTurn "hello", modelTurn "hi there"] := by
  refine ⟨?_, ?_, ?_⟩ <;> decide

/-- Claim C5, amended: for every voice turn whose transcription succeeds
with non-empty text, the completion stage submits exactly the transcript
text to the completion capability — with no session history — and no
session transcript is read or mutated: unlike the claim's description of
the text-chat history logic, this server variant's voice (and text) path
is stateless. -/
theorem voice_completion_stateless (store : Store) (f : String)
    (parts : List String) (g : Except GErr String) (t : Except GErr String)
    (hne : String.intercalate "\n" parts ≠ "") :
    (voiceHandler store (some f) (.ok parts) g t).2.1
        = some (String.intercalate "\n" parts)
    ∧ (voiceHandler store (some f) (.ok parts) g t).2.2 = store := by
  rcases g with e | r
  · constructor <;> simp [voiceHandler, hne]
  · rcases t with e' | a <;> constructor <;> simp [voiceHandler, hne]

/-- Witness for the amended C5 at concrete inputs. -/
theorem voice_completion_stateless_witness :
    String.intercalate "\n" ["hello"] ≠ ""
    ∧ ((voiceHandler [("s", [userTurn "old"])] (some "audio") (.ok ["hello"])
          (.ok "hi there") (.ok "mp3bytes")).2.1
        = some (String.intercalate "\n" ["hello"])
      ∧ (voiceHandler [("s", [userTurn "old"])] (some "audio") (.ok ["hello"])
          (.ok "hi there") (.ok "mp3bytes")).2.2 = [("s", [userTurn "old"])]) :=
  ⟨by decide,
    voice_completion_stateless [("s", [userTurn "old"])] "audio" ["hello"]
      (.ok "hi there") (.ok "mp3bytes") (by decide)⟩

/-- Claim C6, counterexample: transcription and completion succeed
("hello" → "hi there") but synthesis fails; the shared catch turns the
whole voice turn into a 500 error response with no reply text and no
audio — not the claimed success response carrying the reply text with a
non-blocking warning. -/
theorem voice_synthesis_failure_cex :
    voiceHandler [] (some "audio") (.ok ["hello"]) (.ok "hi there")
        (.error ⟨none, "tts down"⟩)
      = (⟨500, none, none, some "Failed to process voice request: tts down"⟩,
          some "hello", [])
    ∧ (voiceHandler [] (some "audio") (.ok ["hello"]) (.ok "hi there")
        (.error ⟨none, "tts down"⟩)).1.reply = none
    ∧ (voiceHandler [] (some "audio") (.ok ["hello"]) (.ok "hi there")
        (.error ⟨none, "tts down"⟩)).1.status ≠ 200 := by
  refine ⟨?_, ?_, ?_⟩ <;> decide

/-- Claim C6, amended: when transcription and completion succeed but the
synthesis stage fails, the single try/catch of the `/voice` handler maps
the synthesis error like any other stage failure: the response is
`voiceCatch` of the error — an error response (status 400, 401 or 500,
never 200) with no reply text and no audio.  No degraded text-only
success response exists in the code. -/
theorem voice_synthesis_failure_errors (store : Store) (f reply : String)
    (parts : List String) (e : GErr)
    (hne : String.intercalate "\n" parts ≠ "") :
    (voiceHandler store (some f) (.ok parts) (.ok reply) (.error e)).1
        = voiceErrResp (voiceCatch e)
    ∧ (voiceErrResp (voiceCatch e)).reply = none
    ∧ (voiceErrResp (voiceCatch e)).audio = none
    ∧ (voiceErrResp (voiceCatch e)).status ≠ 200 := by
  refine ⟨?_, ?_, rfl, ?_⟩
  · simp [voiceHandler, hne]
  · unfold voiceErrResp voiceCatch
    split_ifs <;> rfl
  · unfold voiceErrResp voiceCatch
    split_ifs <;> simp

/-- Witness for the amended C6 at concrete inputs. -/
theorem voice_synthesis_failure_errors_witness :
    String.intercalate "\n" ["hello"] ≠ ""
    ∧ ((voiceHandler [] (some "audio") (.ok ["hello"]) (.ok "hi there")
          (.error ⟨none, "tts down"⟩)).1
        = voiceErrResp (voiceCatch ⟨none, "tts down"⟩)
      ∧ (voiceErrResp (voiceCatch ⟨none, "tts down"⟩)).reply = none
      ∧ (voiceErrResp (voiceCatch ⟨none, "tts down"⟩)).audio = none
      ∧ (voiceErrResp (voiceCatch ⟨none, "tts down"⟩)).status ≠ 200) :=
  ⟨by decide,
    voice_synthesis_failure_errors [] "audio" "hi there" ["hello"]
      ⟨none, "tts down"⟩ (by decide)⟩

end GeminiProxy
